import Mathlib

/-!
Verification development for the internal-link audit tool
(`audit_maillage.py`, `audit_simple_csv.py`, `ext_audit_maillage_classique.py`,
`semantic_analyzer.py`).

The Python sources are shallowly embedded below:

* the link classifier `is_mechanical_link` (audit_maillage.py, lines 364-453),
  including a small regular-expression engine standing for Python's `re`
  module restricted to the constructs the program's patterns use
  (literals, alternation `|`, groups `(...)`, character classes `[...]`,
  escapes `\d` and escaped punctuation, postfix `+ ? *`, and the anchors
  `^` / `$` at the ends of a pattern).  A pattern string the embedded
  compiler rejects models a pattern on which `re.compile` raises
  `re.error`; classification is therefore `Except`-valued, an `error`
  standing for a raised exception;
* `is_internal_link` together with the `netloc` component of the standard
  library's `urlparse` (scheme splitting, `//`-prefixed authority,
  the `Invalid IPv6 URL` ValueError on unbalanced brackets; the control
  character stripping of very recent CPython versions is elided);
* the graph analysis `analyze_linking_patterns` (orphan computation);
* the anchor-quality bucketing of `analyze_editorial_quality` and the
  aggregate `calculate_editorial_score` (real arithmetic over `ℚ`;
  Python's `round(x, 1)` is modelled as rounding to the nearest tenth);
* the embedding cache `encode_with_cache` of `semantic_analyzer.py`, over
  an abstract vector type, hash function and model encoder;
* the diversity gate of `cluster_semantic_themes` (the clustering that
  runs after the gate is kept abstract, as a parameter);
* `find_semantic_gaps`, over an abstract cosine-similarity function.
-/

namespace Audit

/-! ## A small regular-expression engine (model of Python `re`)

Only the constructs appearing in the program's patterns are supported;
`compileRE` returns `none` for anything else, in particular for strings on
which Python's `re.compile` raises `re.error` (such as `"["`). -/

/-- Regular expressions: empty language, empty word, a literal character,
the `\d` digit class, a character class `[...]` (a finite set of characters),
concatenation, alternation and Kleene star. -/
inductive RE : Type where
  | nul : RE
  | eps : RE
  | chr : Char → RE
  | digit : RE
  | cls : List Char → RE
  | seq : RE → RE → RE
  | alt : RE → RE → RE
  | star : RE → RE
deriving DecidableEq, Repr

/-- Does the regular expression accept the empty word? -/
def RE.nullable : RE → Bool
  | .nul => false
  | .eps => true
  | .chr _ => false
  | .digit => false
  | .cls _ => false
  | .seq a b => a.nullable && b.nullable
  | .alt a b => a.nullable || b.nullable
  | .star _ => true

/-- Brzozowski derivative of a regular expression by one character. -/
def RE.deriv : RE → Char → RE
  | .nul, _ => .nul
  | .eps, _ => .nul
  | .chr c, a => if a = c then .eps else .nul
  | .digit, a => if a.isDigit then .eps else .nul
  | .cls cs, a => if a ∈ cs then .eps else .nul
  | .seq x y, a => if x.nullable then .alt (.seq (x.deriv a) y) (y.deriv a) else .seq (x.deriv a) y
  | .alt x y, a => .alt (x.deriv a) (y.deriv a)
  | .star x, a => .seq (x.deriv a) (.star x)

/-- Does the regular expression accept the whole character list? -/
def RE.matchList : RE → List Char → Bool
  | r, [] => r.nullable
  | r, c :: cs => (r.deriv c).matchList cs

/-- Does the regular expression accept some initial segment of the list? -/
def RE.matchInit : RE → List Char → Bool
  | r, [] => r.nullable
  | r, c :: cs => r.nullable || (r.deriv c).matchInit cs

/-- Does the regular expression accept some final segment of the list? -/
def RE.matchTail : RE → List Char → Bool
  | r, [] => r.nullable
  | r, c :: cs => r.matchList (c :: cs) || r.matchTail cs

/-- Does the regular expression accept some contiguous slice of the list?
This is the semantics of an unanchored `re.search`. -/
def RE.searchIn : RE → List Char → Bool
  | r, [] => r.nullable
  | r, c :: cs => r.matchInit (c :: cs) || r.searchIn cs

/-- A compiled pattern: the body together with whether the source pattern was
anchored with a leading `^` and/or a trailing `$`. -/
structure Pat : Type where
  anchorStart : Bool
  anchorEnd : Bool
  re : RE
deriving DecidableEq, Repr

/-- Semantics of `re.search(pattern, s)` for a compiled pattern: both anchors
force a match of the whole string, a single anchor a match of an initial or
final segment, no anchor a match of any contiguous slice.  (The newline
special case of `$` is irrelevant here: the audited strings are CSV fields.) -/
def Pat.search (p : Pat) (s : String) : Bool :=
  match p.anchorStart, p.anchorEnd with
  | true, true => p.re.matchList s.data
  | true, false => p.re.matchInit s.data
  | false, true => p.re.matchTail s.data
  | false, false => p.re.searchIn s.data

/-- Characters allowed as plain literals in a pattern (anything that is not a
metacharacter of the supported subset). -/
def plainChar (c : Char) : Bool :=
  !(c ∈ ['+', '?', '*', ')', '(', '|', '^', '$', '[', '\\', '.'])

/-- Parse the interior of a character class `[...]`, collecting its member
characters; a backslash escapes the next character.  Ranges (`-`) and negation
(`^`) are not supported and yield `none`. -/
def parseClass : List Char → List Char → Option (RE × List Char)
  | [], _ => none
  | ']' :: rest, acc => some (.cls acc.reverse, rest)
  | '\\' :: c :: rest, acc => parseClass rest (c :: acc)
  | '\\' :: [], _ => none
  | c :: rest, acc =>
    if c = '^' || c = '-' then none else parseClass rest (c :: acc)

/-- Apply a run of postfix repetition operators `+`, `?`, `*` to a parsed atom. -/
def applyPost : RE → List Char → RE × List Char
  | r, '+' :: rest => applyPost (.seq r (.star r)) rest
  | r, '?' :: rest => applyPost (.alt r .eps) rest
  | r, '*' :: rest => applyPost (.star r) rest
  | r, rest => (r, rest)

/-- The level of the recursive-descent grammar being parsed: an alternation
`cat ('|' cat)*`, a concatenation of atoms, or one atom. -/
inductive PMode : Type where
  | alt : PMode
  | cat : PMode
  | atom : PMode
deriving DecidableEq, Repr

/-- Fuel-bounded recursive descent over the three grammar levels (the fuel
drops on every recursive call, making the parser structurally recursive and
computable by reduction). -/
def parseRun : Nat → PMode → List Char → Option (RE × List Char)
  | 0, _, _ => none
  | fuel + 1, .alt, cs =>
    match parseRun fuel .cat cs with
    | none => none
    | some (r, rest) =>
      match rest with
      | '|' :: rest2 =>
        match parseRun fuel .alt rest2 with
        | none => none
        | some (r2, rest3) => some (.alt r r2, rest3)
      | _ => some (r, rest)
  | fuel + 1, .cat, cs =>
    match cs with
    | [] => some (.eps, [])
    | ')' :: _ => some (.eps, cs)
    | '|' :: _ => some (.eps, cs)
    | _ =>
      match parseRun fuel .atom cs with
      | none => none
      | some (a, rest) =>
        match applyPost a rest with
        | (a2, rest2) =>
          match parseRun fuel .cat rest2 with
          | none => none
          | some (b, rest3) => some (.seq a2 b, rest3)
  | fuel + 1, .atom, cs =>
    match cs with
    | [] => none
    | '(' :: rest =>
      match parseRun fuel .alt rest with
      | none => none
      | some (r, rest2) =>
        match rest2 with
        | ')' :: rest3 => some (r, rest3)
        | _ => none
    | '[' :: rest => parseClass rest []
    | '\\' :: c :: rest => if c = 'd' then some (.digit, rest) else some (.chr c, rest)
    | c :: rest => if plainChar c then some (.chr c, rest) else none

/-- Compile a pattern string: strip a leading `^` and a trailing `$`, then
parse the body.  `none` models a pattern on which `re.compile` raises
`re.error` (or one outside the supported subset). -/
def compileRE (p : String) : Option Pat :=
  let cs := p.data
  let (aS, cs1) := match cs with
    | '^' :: rest => (true, rest)
    | _ => (false, cs)
  let (aE, body) := match cs1.reverse with
    | '$' :: rest => (true, rest.reverse)
    | _ => (false, cs1)
  match parseRun (4 * body.length + 8) .alt body with
  | some (r, []) => some ⟨aS, aE, r⟩
  | _ => none

/-- Compile every pattern of a list; `none` as soon as one is malformed. -/
def compileAll : List String → Option (List Pat)
  | [] => some []
  | p :: rest =>
    match compileRE p with
    | none => none
    | some r =>
      match compileAll rest with
      | none => none
      | some rs => some (r :: rs)

/-! ## The link classifier (`is_mechanical_link`, audit_maillage.py 364-453;
the copy in ext_audit_maillage_classique.py 631-720 is identical)

A `LinkRow` holds the four fields the function reads, already extracted from
the CSV row; the fuzzy column-name detection of lines 367-381 is the
ingestion adapter and is elided (a missing column is an empty string, exactly
what `row.get(col, '')` yields). -/

/-- Occurrence of `t` as a contiguous slice of `s` (Python's `t in s`). -/
def sliceIn (t : List Char) : List Char → Bool
  | [] => t.isPrefixOf []
  | c :: cs => t.isPrefixOf (c :: cs) || sliceIn t cs

/-- Python's substring test `t in s`. -/
def strContains (s t : String) : Bool :=
  sliceIn t.data s.data

/-- Python's `str.lower()` (ASCII letters; the program's vocabulary and field
values are already lower-case outside ASCII). -/
def pyLower (s : String) : String :=
  ⟨s.data.map Char.toLower⟩

/-- Python's `str.strip()`: drop whitespace from both ends. -/
def pyStrip (s : String) : String :=
  ⟨((s.data.dropWhile Char.isWhitespace).reverse.dropWhile Char.isWhitespace).reverse⟩

/-- Python's `str.startswith(p)`. -/
def pyStartsWith (s p : String) : Bool :=
  p.data.isPrefixOf s.data

/-- The four fields of one link record, as read from the CSV row. -/
structure LinkRow : Type where
  anchor : String
  origin : String
  xpath : String
  link_type : String
deriving DecidableEq, Repr

/-- The two configuration keys the classifier reads (an empty list is the
falsy `[]` of `config.get(key, [])`, making the defaults apply). -/
structure Config : Type where
  mechanical_anchor_patterns : List String
  mechanical_selectors : List String
deriving DecidableEq, Repr

/-- Navigation origin vocabulary of rule 1 (line 393). -/
def navigation_origins : List String :=
  ["navigation", "en-tête", "pied de page", "header", "footer", "nav", "menu"]

/-- The built-in mechanical anchor patterns of rule 3 (lines 401-413). -/
def default_mechanical_anchors : List String :=
  [ "^(accueil|home|menu|navigation)$"
  , "^(suivant|précédent|next|previous|page \\d+)$"
  , "^(lire la suite|en savoir plus|voir plus|read more|more)$"
  , "^(contact|à propos|mentions légales|cgv|politique|privacy)$"
  , "^\\d+$"
  , "^(cliquez ici|cliquer ici|ici|click here|here)$"
  , "^(retour|back|retour accueil)$"
  , "^(passer au contenu|skip to content)$"
  , "^(voir tout|see all|view all)$"
  , "^(\\+|\\-|\\>|\\<|\\»|\\«)$"
  , "^$" ]

/-- A single-quote character, written by code point to keep pattern strings
free of quoting noise. -/
def squote : String := String.singleton (Char.ofNat 39)

/-- The hardcoded XPath patterns of rule 4 (lines 422-430). -/
def mechanical_xpath_patterns : List String :=
  [ "(header|footer|nav|navigation|menu)"
  , "(breadcrumb|pagination|pager)"
  , "(sidebar|widget|aside)"
  , "(social|share|partage)"
  , "(tag|category|categorie)"
  , "(related|connexe|similaire)"
  , "role=[\"\\" ++ squote ++ "]?(navigation|menu|banner|contentinfo)[\"\\" ++ squote ++ "]?" ]

/-- The built-in CSS selector tokens of rule 5 (line 437). -/
def default_selectors : List String :=
  [".menu", ".nav", ".header", ".footer", ".breadcrumb", ".pagination", ".sidebar"]

/-- The short-anchor allowlist of rule 6 (line 444). -/
def short_allowlist : List String :=
  ["tv", "pc", "seo", "api", "faq"]

/-- Anchor patterns actually used: config patterns when the list is nonempty,
else the defaults (line 415). -/
def patternsToUse (cfg : Config) : List String :=
  if cfg.mechanical_anchor_patterns.isEmpty then default_mechanical_anchors
  else cfg.mechanical_anchor_patterns

/-- Selector tokens actually used: config selectors when nonempty, else the
defaults (line 438). -/
def selectorsToUse (cfg : Config) : List String :=
  if cfg.mechanical_selectors.isEmpty then default_selectors
  else cfg.mechanical_selectors

/-- The pattern loop of rules 3 and 4 (lines 417-419 and 432-434): compile and
search each pattern in turn; a match short-circuits to `true`, a malformed
pattern raises `re.error` (an `Except.error`) when it is reached. -/
def scanPatterns (pats : List String) (s : String) : Except Unit Bool :=
  match pats with
  | [] => .ok false
  | p :: rest =>
    match compileRE p with
    | none => .error ()
    | some r => if r.search s then .ok true else scanPatterns rest s

/-- Rule 1 (line 394): some navigation origin occurs in the origin field. -/
def originRule (origin : String) : Bool :=
  navigation_origins.any (fun x => strContains origin x)

/-- Rule 2 (line 398): the explicit link type is a navigation type. -/
def linkTypeRule (ltype : String) : Bool :=
  ltype ∈ ["navigation", "menu", "footer", "header", "breadcrumb"]

/-- Python's `sel.replace('.', '')`: remove every dot. -/
def removeDots (s : String) : String :=
  ⟨s.data.filter (fun c => c ≠ '.')⟩

/-- Rule 5 (lines 439-441): the xpath contains a selector token, with or
without its leading dots. -/
def selectorRule (selectors : List String) (xpath : String) : Bool :=
  selectors.any (fun sel => strContains xpath (removeDots sel) || strContains xpath sel)

/-- Rule 6 (line 444): the trimmed anchor has at most two characters and is
not in the allowlist. -/
def shortAnchorRule (anchor : String) : Bool :=
  (pyStrip anchor).length ≤ 2 && !((pyStrip anchor) ∈ short_allowlist)

/-- Rule 7 (line 448): the anchor starts like a URL. -/
def urlAnchorRule (anchor : String) : Bool :=
  pyStartsWith anchor "http://" || pyStartsWith anchor "https://" ||
    pyStartsWith anchor "www."

/-- `is_mechanical_link` (audit_maillage.py 364-453): the seven rules in
source order, first match winning; reaching a malformed configured pattern in
rule 3 raises (`Except.error`).  The field preprocessing of lines 383-386
(lower-casing all four fields, trimming the anchor) is applied inline at each
use of a field. -/
def is_mechanical_link (cfg : Config) (row : LinkRow) : Except Unit Bool :=
  if originRule (pyLower row.origin) then .ok true
  else if linkTypeRule (pyLower row.link_type) then .ok true
  else match scanPatterns (patternsToUse cfg) (pyStrip (pyLower row.anchor)) with
  | .error e => .error e
  | .ok true => .ok true
  | .ok false =>
    match scanPatterns mechanical_xpath_patterns (pyLower row.xpath) with
    | .error e => .error e
    | .ok true => .ok true
    | .ok false =>
      if selectorRule (selectorsToUse cfg) (pyLower row.xpath) then .ok true
      else if shortAnchorRule (pyStrip (pyLower row.anchor)) then .ok true
      else if urlAnchorRule (pyStrip (pyLower row.anchor)) then .ok true
      else .ok false

/-- The default configuration: both lists empty, so the built-in pattern and
selector lists apply. -/
def defaultConfig : Config := ⟨[], []⟩

/-! ## `is_internal_link` (audit_maillage.py 355-362; audit_simple_csv.py 52-59)

The function compares `urlparse(url).netloc` of the two URLs inside a bare
`try`, returning `False` when parsing raises.  `splitNetloc` embeds the
`netloc` computation of the standard library's `urlsplit`: an optional
`scheme:` prefix is removed when the text before the first colon is a valid
scheme, the authority is present only after `//` and runs to the next `/`,
`?` or `#`, and a bracket appearing without its partner raises
`ValueError("Invalid IPv6 URL")` (modelled as `Except.error`). -/

/-- Characters allowed in a URL scheme after the initial letter. -/
def schemeChar (c : Char) : Bool :=
  c.isAlphanum || c = '+' || c = '-' || c = '.'

/-- Split a character list at its first colon, if any. -/
def splitAtColon : List Char → Option (List Char × List Char)
  | [] => none
  | ':' :: rest => some ([], rest)
  | c :: rest =>
    match splitAtColon rest with
    | none => none
    | some (before, after) => some (c :: before, after)

/-- Remove a leading `scheme:` when the prefix before the first colon is a
nonempty valid scheme (first character a letter, the rest scheme characters). -/
def stripScheme (cs : List Char) : List Char :=
  match splitAtColon cs with
  | none => cs
  | some (before, after) =>
    match before with
    | [] => cs
    | c :: rest =>
      if c.isAlpha && rest.all schemeChar then after else cs

/-- The `netloc` component of `urlsplit`, or an error for an invalid IPv6
authority (exactly one of `[`, `]` present). -/
def splitNetloc (url : String) : Except Unit String :=
  let rest := stripScheme url.data
  match rest with
  | '/' :: '/' :: r =>
    let net := r.takeWhile (fun c => !(c = '/' || c = '?' || c = '#'))
    if (net.contains '[' != net.contains ']') then .error ()
    else .ok ⟨net⟩
  | _ => .ok ""

/-- `is_internal_link`: equality of the two netlocs, `false` when parsing
either URL raises (the source URL is parsed first, as in the Python `try`
block). -/
def is_internal_link (source_url dest_url : String) : Bool :=
  match splitNetloc source_url with
  | .error _ => false
  | .ok a =>
    match splitNetloc dest_url with
    | .error _ => false
    | .ok b => a == b

/-! ## Orphan pages (`analyze_linking_patterns`, audit_maillage.py 607-664;
audit_simple_csv.py 143-188)

A `GraphRecord` is one internal link record after classification: the source
and destination URLs and the derived `is_mechanical` flag (the anchor plays
no part in the orphan computation).  The column detection of the
audit_maillage.py copy is the ingestion adapter and is elided. -/

/-- One classified internal link record. -/
structure GraphRecord : Type where
  source : String
  dest : String
  is_mechanical : Bool
deriving DecidableEq, Repr

/-- `all_pages`: the set of source URLs of all internal records (lines
648-650 / 168-169). -/
def all_pages (links : List GraphRecord) : Finset String :=
  (links.map (fun l => l.source)).toFinset

/-- `linked_pages`: the set of destination URLs of editorial (non-mechanical)
records (lines 651-652 / 170-171). -/
def linked_pages (links : List GraphRecord) : Finset String :=
  ((links.filter (fun l => !l.is_mechanical)).map (fun l => l.dest)).toFinset

/-- `orphan_pages = all_pages - linked_pages` (line 654 / 173). -/
def orphan_pages (links : List GraphRecord) : Finset String :=
  all_pages links \ linked_pages links

/-- Modelled from the spec (§4.2): the orphan computation as the spec
describes it, with self-referential links (source == destination) excluded
from both counters before orphans are computed.  No such exclusion exists in
the source; this definition exists only to be compared with `orphan_pages`. -/
def orphan_pages_specVariant (links : List GraphRecord) : Finset String :=
  let nonself := links.filter (fun l => l.source ≠ l.dest)
  all_pages nonself \ linked_pages nonself

/-! ## Anchor-quality bucketing (`analyze_editorial_quality`,
audit_maillage.py 691-719)

The loop body classifies one nonempty editorial anchor; the per-anchor logic
is embedded as `bucketAnchor`.  Real arithmetic is exact (`ℚ`), string
lengths count characters as Python's `len` does. -/

/-- Split a character list on whitespace runs, the accumulator holding the
current word reversed. -/
def splitWsAux : List Char → List Char → List (List Char)
  | [], acc => if acc.isEmpty then [] else [acc.reverse]
  | c :: cs, acc =>
    if c.isWhitespace then
      if acc.isEmpty then splitWsAux cs [] else acc.reverse :: splitWsAux cs []
    else splitWsAux cs (c :: acc)

/-- Python's `str.split()`: split on whitespace runs, discarding empties. -/
def pySplit (s : String) : List String :=
  (splitWsAux s.data []).map (fun l => ⟨l⟩)

/-- Membership of one anchor in each of the five quality buckets. -/
structure BucketResult : Type where
  too_short : Bool
  too_long : Bool
  good_quality : Bool
  keyword_stuffed : Bool
  url_anchor : Bool
deriving DecidableEq, Repr

/-- The keyword stuffing test (lines 708-714): some word longer than three
characters occurs more than twice among the lower-cased words of the anchor. -/
def keywordStuffed (anchor : String) : Bool :=
  let longWords := (pySplit (pyLower anchor)).filter (fun w => 3 < w.length)
  longWords.any (fun w => 2 < longWords.count w)

/-- One iteration of the bucketing loop (lines 698-719) on a nonempty anchor:
the three length buckets are an if/elif chain on the word count, keyword
stuffing and URL-as-anchor are independent tests. -/
def bucketAnchor (anchor : String) : BucketResult :=
  let wc := (pySplit anchor).length
  let lengths : Bool × Bool × Bool :=
    if wc = 1 ∧ anchor.length < 4 then (true, false, false)
    else if 8 < wc then (false, true, false)
    else if 2 ≤ wc ∧ wc ≤ 6 then (false, false, true)
    else (false, false, false)
  { too_short := lengths.1
  , too_long := lengths.2.1
  , good_quality := lengths.2.2
  , keyword_stuffed := keywordStuffed anchor
  , url_anchor := pyStartsWith anchor "http://" || pyStartsWith anchor "https://"
      || pyStartsWith anchor "www." }

/-! ## `calculate_editorial_score` (audit_maillage.py 766-809;
ext_audit_maillage_classique.py 1690-1733, identical) -/

/-- Bucket sizes handed to the score (the lengths of the five lists of
`anchor_quality`). -/
structure AnchorQuality : Type where
  too_short : ℕ
  too_long : ℕ
  good_quality : ℕ
  keyword_stuffed : ℕ
  url_anchors : ℕ
deriving DecidableEq, Repr

/-- The base score from the editorial ratio (lines 773-782). -/
def base_score (editorial_ratio : ℚ) : ℚ :=
  if 70 ≤ editorial_ratio then 90
  else if 50 ≤ editorial_ratio then 70
  else if 30 ≤ editorial_ratio then 50
  else if 15 ≤ editorial_ratio then 30
  else 10

/-- The volume penalty exactly as the source orders its branches (lines
798-803): `if total_editorial < 50: 10 elif total_editorial < 20: 20 else 0`.
The 20-point branch is unreachable, since every total below 20 is also below
50 and is caught by the first branch. -/
def volume_penalty (total_editorial : ℕ) : ℚ :=
  if total_editorial < 50 then 10
  else if total_editorial < 20 then 20
  else 0

/-- Rounding to one decimal place, standing for Python's `round(x, 1)`
(exact at every value the boundedness claims touch; ties are rounded up here
where CPython rounds them to even). -/
def round1 (q : ℚ) : ℚ :=
  ((round (10 * q) : ℤ) : ℚ) / 10

/-- `calculate_editorial_score` (lines 766-809).  A zero editorial total
returns 0 before any division; otherwise the base score is adjusted by the
four damped penalties, the capped bonus and the volume penalty, clamped to
[0, 100], and rounded to one decimal.  `total_internal_links` is a parameter
the source never reads; it is kept for fidelity. -/
def calculate_editorial_score (aq : AnchorQuality) (total_editorial : ℕ)
    (editorial_ratio : ℚ) (total_internal_links : ℕ) : ℚ :=
  if total_editorial = 0 then 0
  else
    let _ := total_internal_links
    let base := base_score editorial_ratio
    let penalty_factor := base / 100
    let too_short_penalty := ((aq.too_short : ℚ) / total_editorial) * 15 * penalty_factor
    let too_long_penalty := ((aq.too_long : ℚ) / total_editorial) * 10 * penalty_factor
    let keyword_stuffed_penalty := ((aq.keyword_stuffed : ℚ) / total_editorial) * 20 * penalty_factor
    let url_anchors_penalty := ((aq.url_anchors : ℚ) / total_editorial) * 25 * penalty_factor
    let good_quality_bonus := min 5 (((aq.good_quality : ℚ) / total_editorial) * 10)
    let final := base - too_short_penalty - too_long_penalty - keyword_stuffed_penalty
      - url_anchors_penalty + good_quality_bonus - volume_penalty total_editorial
    round1 (max 0 (min 100 final))

/-! ## The embedding cache (`encode_with_cache`, semantic_analyzer.py 96-130)

The model is loaded (`_load_model` succeeds) and the cache directory is
writable, so `_get_cached_embedding` is a lookup keyed by the text's hash and
`_cache_embedding` a store under that key.  Vectors are an abstract type `V`,
the hash (`hashlib.md5 hexdigest`) an abstract `String → String`, the model
(`self.model.encode`, applied to the batch of cache misses) an abstract
`String → V`, and the zero vector returned for short texts an abstract
constant.  The result carries the batch `texts_to_encode` actually sent to
the model, so that call counts are observable. -/

/-- `_get_cached_embedding`, given the hash already applied: first stored
vector under the key. -/
def lookupCache {V : Type} (st : List (String × V)) (key : String) : Option V :=
  (st.find? (fun kv => kv.1 = key)).map (fun kv => kv.2)

/-- `_cache_embedding`, given the hash already applied. -/
def cachePut {V : Type} (st : List (String × V)) (key : String) (v : V) :
    List (String × V) :=
  (key, v) :: st

/-- Phase one of `encode_with_cache` (lines 105-117): each text becomes a
resolved vector (`inl`: a zero vector for empty or short text, or a cache
hit) or is queued for the model (`inr`).  All lookups read the state as of
entry, as the Python loop does. -/
def cachePhase1 {V : Type} (hash : String → String) (zeroVec : V)
    (st : List (String × V)) : List String → List (V ⊕ String)
  | [] => []
  | t :: ts =>
    (if t = "" ∨ (pyStrip t).length < 3 then .inl zeroVec
     else match lookupCache st (hash t) with
       | some v => .inl v
       | none => .inr t) :: cachePhase1 hash zeroVec st ts

/-- The batch `texts_to_encode`: the queued texts in order. -/
def cacheMisses {V : Type} (l : List (V ⊕ String)) : List String :=
  l.filterMap (fun x => match x with
    | .inr t => some t
    | .inl _ => none)

/-- Phase two (lines 125-128): put the freshly encoded vectors back in the
placeholder positions. -/
def cacheFill {V : Type} : List (V ⊕ String) → List V → List V
  | [], _ => []
  | .inl v :: rest, vs => v :: cacheFill rest vs
  | .inr _ :: rest, v :: vs => v :: cacheFill rest vs
  | .inr _ :: _, [] => []

/-- The result of one `encode_with_cache` call: the returned vectors, the
cache state after the call, and the batch sent to the model (empty when the
model was not invoked). -/
structure EncodeResult (V : Type) : Type where
  vectors : List V
  state : List (String × V)
  modelBatch : List String

/-- `encode_with_cache` (lines 96-130): resolve each text against the cache,
encode the misses in one batch model call, persist each new vector keyed by
its text's hash, and return the vectors in input order. -/
def encode_with_cache {V : Type} (hash : String → String) (modelEnc : String → V)
    (zeroVec : V) (texts : List String) (st : List (String × V)) : EncodeResult V :=
  let ph := cachePhase1 hash zeroVec st texts
  let misses := cacheMisses ph
  let newVecs := misses.map modelEnc
  let st2 := (misses.zip newVecs).foldl (fun s tv => cachePut s (hash tv.1) tv.2) st
  ⟨cacheFill ph newVecs, st2, misses⟩

/-! ## The diversity gate (`cluster_semantic_themes`, semantic_analyzer.py
157-179)

Everything up to and including the diversity gate is computable without
embeddings and is embedded exactly; the clustering that would run past the
gate (encoding, DBSCAN, naming, lines 181-236) is an abstract parameter
`clusterRest`, so theorems can quantify over it.  The `ℚ` value `3/10`
stands for the float literal `0.3`. -/

/-- The length filter (line 164): keep nonempty anchors whose stripped length
exceeds three. -/
def filtered_anchors (anchor_texts : List String) : List String :=
  anchor_texts.filter (fun a => a ≠ "" ∧ 3 < (pyStrip a).length)

/-- The set of case-folded, stripped anchors (line 169). -/
def unique_anchors (l : List String) : Finset String :=
  (l.map (fun a => pyStrip (pyLower a))).toFinset

/-- `diversity_ratio` (line 170), defined only on a nonempty list (Python
raises `ZeroDivisionError` otherwise; the caller below keeps that case as an
explicit error). -/
def diversity_ratio (l : List String) : ℚ :=
  ((unique_anchors l).card : ℚ) / l.length

/-- `cluster_semantic_themes` up to the diversity gate (lines 157-179): the
early returns for a missing or undersized input, the length filter, the gate,
and otherwise the abstract remainder of the function.  The `Except.error`
branch is Python's `ZeroDivisionError` when the filtered list is empty yet
reaches the division (possible only for `min_cluster_size = 0`). -/
def cluster_semantic_themes (anchor_texts : List String) (min_cluster_size : ℕ)
    (clusterRest : List String → List (String × List String)) :
    Except Unit (List (String × List String)) :=
  if anchor_texts = [] ∨ anchor_texts.length < min_cluster_size then .ok []
  else if (filtered_anchors anchor_texts).length < min_cluster_size then .ok []
  else if (filtered_anchors anchor_texts).length = 0 then .error ()
  else if diversity_ratio (filtered_anchors anchor_texts) < 3 / 10 then .ok []
  else .ok (clusterRest (filtered_anchors anchor_texts))

/-! ## `find_semantic_gaps` (semantic_analyzer.py 240-269)

Pages are an association list (the insertion order of the `page_contents`
dict), and the pairwise cosine similarity of two contents' embeddings is an
abstract `sim : String → String → ℚ` (the similarity matrix entry). -/

/-- All index-ordered pairs of a list, in the order of the source's nested
loops (`i` outer ascending, `j` inner ascending, `i < j`). -/
def allPairs {α : Type} : List α → List (α × α)
  | [] => []
  | x :: xs => xs.map (fun y => (x, y)) ++ allPairs xs

/-- The `opportunities` list before sorting (lines 258-263): every pair of
distinct pages, in loop order, whose similarity strictly exceeds the
threshold. -/
def gap_candidates (sim : String → String → ℚ) (pages : List (String × String))
    (threshold : ℚ) : List (String × String × ℚ) :=
  (allPairs pages).filterMap (fun pq =>
    let s := sim pq.1.2 pq.2.2
    if threshold < s then some (pq.1.1, pq.2.1, s) else none)

/-- The comparison of `opportunities.sort(key=..., reverse=True)`: descending
on the similarity component (a stable merge sort, as Python's sort is stable). -/
def gapLE (a b : String × String × ℚ) : Bool :=
  b.2.2 ≤ a.2.2

/-- `find_semantic_gaps` (lines 240-269): empty for fewer than two pages,
otherwise the qualifying pairs sorted by similarity descending and truncated
to the top 20. -/
def find_semantic_gaps (sim : String → String → ℚ) (pages : List (String × String))
    (threshold : ℚ) : List (String × String × ℚ) :=
  if pages.length < 2 then []
  else ((gap_candidates sim pages threshold).mergeSort gapLE).take 20

/-! ## Theorems -/

/-- Bounds of the one-decimal rounding: a value in `[0, 100]` stays in
`[0, 100]`. -/
theorem round1_bounds {q : ℚ} (h0 : 0 ≤ q) (h1 : q ≤ 100) :
    0 ≤ round1 q ∧ round1 q ≤ 100 := by
  unfold round1
  have hfl : round (10 * q) = ⌊10 * q + 1 / 2⌋ := round_eq _
  constructor
  · have h2 : (0 : ℤ) ≤ ⌊10 * q + 1 / 2⌋ := Int.le_floor.mpr (by push_cast; linarith)
    rw [hfl]
    have : (0 : ℚ) ≤ (⌊10 * q + 1 / 2⌋ : ℚ) := by exact_mod_cast h2
    linarith
  · have h2 : ⌊10 * q + 1 / 2⌋ ≤ ⌊(2001 : ℚ) / 2⌋ := Int.floor_mono (by linarith)
    have h3 : ⌊(2001 : ℚ) / 2⌋ = 1000 := by
      rw [Int.floor_eq_iff]
      norm_num
    rw [hfl]
    have : ((⌊10 * q + 1 / 2⌋ : ℤ) : ℚ) ≤ 1000 := by exact_mod_cast h3 ▸ h2
    linarith

/-- Claim C3 (code_bug evidence): the volume penalty the source actually
subtracts is 10 on every total below 50 — in particular 10, not 20, when the
total is below 20 — and never 20 on any input: the `total_editorial < 20`
branch of lines 798-803 is unreachable because every such total is caught by
the `< 50` branch first.  The spec's graduated penalty (20 below 20, 10 below
50) is what the dead branch was evidently meant to produce. -/
theorem volume_penalty_dead_branch :
    volume_penalty 10 = 10 ∧ volume_penalty 19 = 10 ∧
      ∀ n : ℕ, volume_penalty n = 10 ∨ volume_penalty n = 0 := by
  refine ⟨by norm_num [volume_penalty], by norm_num [volume_penalty], ?_⟩
  intro n
  unfold volume_penalty
  split
  · exact Or.inl rfl
  · rw [if_neg (by omega)]
    exact Or.inr rfl

/-- Claim C4: `calculate_editorial_score` is bounded by `[0, 100]` on every
input, and a zero editorial total yields exactly 0 (the early return of line
768, before any division). -/
theorem calculate_editorial_score_bounds :
    (∀ (aq : AnchorQuality) (te : ℕ) (er : ℚ) (til : ℕ),
        0 ≤ calculate_editorial_score aq te er til ∧
          calculate_editorial_score aq te er til ≤ 100) ∧
      ∀ (aq : AnchorQuality) (er : ℚ) (til : ℕ),
        calculate_editorial_score aq 0 er til = 0 := by
  constructor
  · intro aq te er til
    unfold calculate_editorial_score
    split
    · norm_num
    · apply round1_bounds
      · exact le_max_left _ _
      · exact max_le (by norm_num) (min_le_left _ _)
  · intro aq er til
    simp [calculate_editorial_score]

/-- Claim C5 (counterexample): the anchor
`"cliquez ici cliquez ici cliquez ici"` lands in the `good_quality` bucket —
its six words fall in the 2-6 band of line 704 — where the claim states
`good_quality = False`. -/
theorem bucketAnchor_stuffed_good_quality :
    (bucketAnchor "cliquez ici cliquez ici cliquez ici").good_quality = true := by
  decide

/-- Claim C5 (amended): on the anchor
`"cliquez ici cliquez ici cliquez ici"`, the bucketing yields
`keyword_stuffed = True` ("cliquez", longer than three characters, occurs
three times), `too_long = False` (six words, not more than eight), and
`good_quality = True` (six words lie in the 2-6 good-quality band). -/
theorem bucketAnchor_stuffed_eval :
    bucketAnchor "cliquez ici cliquez ici cliquez ici" =
      ⟨false, false, true, true, false⟩ := by
  decide

/-- Claim C2 (counterexample): on the records
`[a→a editorial, a→c editorial]` the source computes no orphan at all —
the editorial self-link `a→a` puts `a` into `linked_pages` — while the
claim's exclusion of self-referential links would make `a` an orphan.
No such exclusion exists in `analyze_linking_patterns`. -/
theorem orphan_pages_self_link_counterexample :
    orphan_pages [⟨"a", "a", false⟩, ⟨"a", "c", false⟩] = ∅ ∧
      orphan_pages_specVariant [⟨"a", "a", false⟩, ⟨"a", "c", false⟩] = {"a"} ∧
      orphan_pages [⟨"a", "a", false⟩, ⟨"a", "c", false⟩] ≠
        orphan_pages_specVariant [⟨"a", "a", false⟩, ⟨"a", "c", false⟩] := by
  refine ⟨by decide, by decide, by decide⟩

/-- Claim C2 (amended): `orphan_pages` is `all_pages − linked_pages` with
`all_pages` the sources of all internal records and `linked_pages` the
destinations of editorial records, with no exclusion of self-referential
links: a page is an orphan exactly when it occurs as a source and no
editorial record — not even a self-link — has it as destination.  In
particular a page that only receives mechanical inbound links is an orphan. -/
theorem orphan_pages_characterization :
    ∀ (links : List GraphRecord) (p : String),
      p ∈ orphan_pages links ↔
        (p ∈ all_pages links ∧
          ∀ l ∈ links, l.is_mechanical = false → l.dest ≠ p) := by
  intro links p
  simp only [orphan_pages, Finset.mem_sdiff, linked_pages, List.mem_toFinset,
    List.mem_map, List.mem_filter, Bool.not_eq_true']
  constructor
  · rintro ⟨hall, hnl⟩
    refine ⟨hall, ?_⟩
    intro l hl hmech hdest
    exact hnl ⟨l, ⟨hl, hmech⟩, hdest⟩
  · rintro ⟨hall, hno⟩
    refine ⟨hall, ?_⟩
    rintro ⟨l, ⟨hl, hmech⟩, hdest⟩
    exact hno l hl hmech hdest

/-- Claim C10: `is_internal_link` returns `true` exactly when both URLs parse
to the same netloc, and `false` whenever parsing either URL raises; two
relative paths (or two empty strings) both have the empty netloc and are
therefore classified internal. -/
theorem is_internal_link_netloc_eq :
    (∀ s d : String, is_internal_link s d = true ↔
        ∃ a, splitNetloc s = .ok a ∧ splitNetloc d = .ok a) ∧
      (∀ s d : String, (splitNetloc s = .error () ∨ splitNetloc d = .error ()) →
        is_internal_link s d = false) ∧
      splitNetloc "a.html" = .ok "" ∧ splitNetloc "b.html" = .ok "" ∧
      is_internal_link "a.html" "b.html" = true ∧
      is_internal_link "" "" = true := by
  refine ⟨?_, ?_, by rfl, by rfl, by rfl, by rfl⟩
  · intro s d
    unfold is_internal_link
    rcases h1 : splitNetloc s with e | a
    · simp only [Bool.false_eq_true, false_iff]
      rintro ⟨x, hx, _⟩
      exact Except.noConfusion hx
    · rcases h2 : splitNetloc d with e | b
      · simp only [Bool.false_eq_true, false_iff]
        rintro ⟨x, _, hx⟩
        exact Except.noConfusion hx
      · simp only [beq_iff_eq]
        constructor
        · intro hab
          refine ⟨a, rfl, ?_⟩
          rw [hab]
        · rintro ⟨x, hx1, hx2⟩
          injection hx1 with hx1'
          injection hx2 with hx2'
          rw [hx1', hx2']
  · intro s d h
    unfold is_internal_link
    rcases h with h | h
    · rw [h]
    · rcases h1 : splitNetloc s with e | a
      · rfl
      · rw [h]

/-- Claim C7: encoding a text of trimmed length at least 3 that is not yet
cached, twice in a row, returns identical vectors; the first call sends
exactly that text to the model and persists the vector under the text's hash
in the state it returns, and the second call sends nothing to the model (it
is served from the cache). -/
theorem encode_with_cache_idempotent {V : Type} (hash : String → String)
    (modelEnc : String → V) (zeroVec : V) (t : String) (st : List (String × V))
    (hne : t ≠ "") (hlen : ¬(pyStrip t).length < 3)
    (hmiss : lookupCache st (hash t) = none) :
    (encode_with_cache hash modelEnc zeroVec [t] st).vectors = [modelEnc t] ∧
      (encode_with_cache hash modelEnc zeroVec [t] st).modelBatch = [t] ∧
      lookupCache (encode_with_cache hash modelEnc zeroVec [t] st).state (hash t) =
        some (modelEnc t) ∧
      (encode_with_cache hash modelEnc zeroVec [t]
          (encode_with_cache hash modelEnc zeroVec [t] st).state).vectors =
        [modelEnc t] ∧
      (encode_with_cache hash modelEnc zeroVec [t]
          (encode_with_cache hash modelEnc zeroVec [t] st).state).modelBatch = [] := by
  have hc : ¬(t = "" ∨ (pyStrip t).length < 3) := by
    rintro (h | h)
    · exact hne h
    · exact hlen h
  have hph1 : cachePhase1 hash zeroVec st [t] = [.inr t] := by
    simp [cachePhase1, hc, hmiss]
  have hr1 : encode_with_cache hash modelEnc zeroVec [t] st =
      ⟨[modelEnc t], (hash t, modelEnc t) :: st, [t]⟩ := by
    simp [encode_with_cache, hph1, cacheMisses, cacheFill, cachePut]
  have hlook : lookupCache ((hash t, modelEnc t) :: st) (hash t) = some (modelEnc t) := by
    simp [lookupCache]
  have hph2 : cachePhase1 hash zeroVec ((hash t, modelEnc t) :: st) [t] =
      [.inl (modelEnc t)] := by
    simp [cachePhase1, hc, hlook]
  have hr2 : encode_with_cache hash modelEnc zeroVec [t] ((hash t, modelEnc t) :: st) =
      ⟨[modelEnc t], (hash t, modelEnc t) :: st, []⟩ := by
    simp [encode_with_cache, hph2, cacheMisses, cacheFill]
  refine ⟨by rw [hr1], by rw [hr1], by rw [hr1]; exact hlook, ?_, ?_⟩
  · rw [hr1]
    rw [hr2]
  · rw [hr1]
    rw [hr2]

/-- Witness for claim C7 at a concrete instance: natural-number "vectors",
the identity as hash, the string length as model, the text
`"guide complet"` and an empty cache. -/
theorem encode_with_cache_idempotent_witness :
    (encode_with_cache (fun s => s) String.length 0 ["guide complet"] []).vectors =
        [String.length "guide complet"] ∧
      (encode_with_cache (fun s => s) String.length 0 ["guide complet"] []).modelBatch =
        ["guide complet"] ∧
      lookupCache (encode_with_cache (fun s => s) String.length 0 ["guide complet"]
          []).state "guide complet" = some (String.length "guide complet") ∧
      (encode_with_cache (fun s => s) String.length 0 ["guide complet"]
          (encode_with_cache (fun s => s) String.length 0 ["guide complet"] []).state).vectors =
        [String.length "guide complet"] ∧
      (encode_with_cache (fun s => s) String.length 0 ["guide complet"]
          (encode_with_cache (fun s => s) String.length 0 ["guide complet"]
            []).state).modelBatch = [] :=
  encode_with_cache_idempotent (fun s => s) String.length 0 "guide complet" []
    (by decide) (by decide) rfl

/-- Claim C8: whenever the length-filtered anchors are nonempty (so the
diversity ratio is defined) and their lexical diversity is below 0.30,
`cluster_semantic_themes` returns the empty mapping, whatever the clustering
past the gate would compute. -/
theorem cluster_semantic_themes_diversity_gate
    (anchor_texts : List String) (min_cluster_size : ℕ)
    (clusterRest : List String → List (String × List String))
    (hpos : 0 < (filtered_anchors anchor_texts).length)
    (hdiv : diversity_ratio (filtered_anchors anchor_texts) < 3 / 10) :
    cluster_semantic_themes anchor_texts min_cluster_size clusterRest = .ok [] := by
  unfold cluster_semantic_themes
  split_ifs with h1 h2 h3
  · rfl
  · rfl
  · omega
  · rfl

/-- Witness for claim C8, the spec's concrete scenario: of ten anchors, nine
are the exact string "cliquez ici" and one is distinct, so the diversity is
2/10 < 0.30 and the cluster map is empty — even for a clustering remainder
that would return a nonempty map. -/
theorem cluster_semantic_themes_diversity_gate_witness :
    cluster_semantic_themes
        (List.replicate 9 "cliquez ici" ++ ["optimisation du maillage interne"]) 3
        (fun l => [("Thème 1", l)]) = .ok [] := by
  apply cluster_semantic_themes_diversity_gate
  · decide
  · have hc : (unique_anchors (filtered_anchors
        (List.replicate 9 "cliquez ici" ++ ["optimisation du maillage interne"]))).card = 2 := by
      decide
    have hl : (filtered_anchors
        (List.replicate 9 "cliquez ici" ++ ["optimisation du maillage interne"])).length = 10 := by
      decide
    unfold diversity_ratio
    rw [hc, hl]
    norm_num

/-- A list with fewer than two elements has no index-ordered pairs. -/
theorem allPairs_short {α : Type} (l : List α) (h : l.length < 2) :
    allPairs l = [] := by
  match l with
  | [] => rfl
  | [x] => rfl
  | x :: y :: t =>
    simp only [List.length_cons] at h
    omega

/-- Transitivity of the descending comparison on similarity values. -/
theorem gapLE_trans (a b c : String × String × ℚ)
    (h1 : gapLE a b = true) (h2 : gapLE b c = true) : gapLE a c = true := by
  simp only [gapLE, decide_eq_true_eq] at h1 h2 ⊢
  exact le_trans h2 h1

/-- Totality of the descending comparison on similarity values. -/
theorem gapLE_total (a b : String × String × ℚ) :
    (gapLE a b || gapLE b a) = true := by
  simp only [gapLE, Bool.or_eq_true, decide_eq_true_eq]
  exact le_total _ _

/-- Claim C9: `find_semantic_gaps` returns at most 20 entries — exactly
`min 20 |qualifying pairs|` of them — sorted by similarity in descending
order; every returned entry is an index-ordered pair of distinct pages whose
similarity strictly exceeds the threshold; every qualifying pair is either
returned or has similarity at most that of every returned entry (so the
retained entries are the top-similarity ones, ties broken by the stable
sort); and when at most 20 pairs qualify, the result is exactly the
qualifying pairs (a permutation of them, reordered only by the descending
sort). -/
theorem find_semantic_gaps_spec :
    ∀ (sim : String → String → ℚ) (pages : List (String × String)) (threshold : ℚ),
      (find_semantic_gaps sim pages threshold).length ≤ 20 ∧
      (find_semantic_gaps sim pages threshold).length =
        min 20 (gap_candidates sim pages threshold).length ∧
      List.Sorted (fun a b : String × String × ℚ => b.2.2 ≤ a.2.2)
        (find_semantic_gaps sim pages threshold) ∧
      (∀ e ∈ find_semantic_gaps sim pages threshold,
        threshold < e.2.2 ∧
          ∃ pq ∈ allPairs pages, e = (pq.1.1, pq.2.1, sim pq.1.2 pq.2.2)) ∧
      (∀ e ∈ gap_candidates sim pages threshold,
        e ∈ find_semantic_gaps sim pages threshold ∨
          ∀ e' ∈ find_semantic_gaps sim pages threshold, e.2.2 ≤ e'.2.2) ∧
      ((gap_candidates sim pages threshold).length ≤ 20 →
        (find_semantic_gaps sim pages threshold).Perm
          (gap_candidates sim pages threshold)) := by
  intro sim pages θ
  by_cases hlen : pages.length < 2
  · have hap : allPairs pages = [] := allPairs_short pages hlen
    have hgc : gap_candidates sim pages θ = [] := by
      simp [gap_candidates, hap]
    have hfg : find_semantic_gaps sim pages θ = [] := by
      simp [find_semantic_gaps, hlen]
    rw [hfg, hgc]
    exact ⟨by simp, by simp, List.sorted_nil, by simp, by simp, fun _ => List.Perm.refl []⟩
  · have hfg : find_semantic_gaps sim pages θ =
        ((gap_candidates sim pages θ).mergeSort gapLE).take 20 := by
      simp [find_semantic_gaps, hlen]
    have hperm : ((gap_candidates sim pages θ).mergeSort gapLE).Perm
        (gap_candidates sim pages θ) := List.mergeSort_perm _ _
    have hsorted : List.Pairwise (fun a b => gapLE a b = true)
        ((gap_candidates sim pages θ).mergeSort gapLE) :=
      List.sorted_mergeSort gapLE_trans gapLE_total _
    refine ⟨?_, ?_, ?_, ?_, ?_, ?_⟩
    · rw [hfg]
      exact List.length_take_le _ _
    · rw [hfg, List.length_take, hperm.length_eq]
    · rw [hfg]
      have := hsorted.sublist (List.take_sublist 20 _)
      exact this.imp (fun h => by
        simpa only [gapLE, decide_eq_true_eq] using h)
    · intro e he
      rw [hfg] at he
      have he2 : e ∈ gap_candidates sim pages θ :=
        hperm.mem_iff.mp (List.mem_of_mem_take he)
      rw [gap_candidates, List.mem_filterMap] at he2
      obtain ⟨pq, hpq, hsome⟩ := he2
      dsimp only at hsome
      split_ifs at hsome with hθ
      · cases hsome
        exact ⟨hθ, pq, hpq, rfl⟩
    · intro e he
      by_cases hin : e ∈ find_semantic_gaps sim pages θ
      · exact Or.inl hin
      · refine Or.inr fun e' he' => ?_
        have hm : ((gap_candidates sim pages θ).mergeSort gapLE) =
            ((gap_candidates sim pages θ).mergeSort gapLE).take 20 ++
              ((gap_candidates sim pages θ).mergeSort gapLE).drop 20 :=
          (List.take_append_drop 20 _).symm
        obtain ⟨-, -, hcross⟩ := List.pairwise_append.mp (hm ▸ hsorted)
        have hem : e ∈ (gap_candidates sim pages θ).mergeSort gapLE :=
          hperm.mem_iff.mpr he
        rw [hm] at hem
        rcases List.mem_append.mp hem with h | h
        · rw [hfg] at hin
          exact absurd h hin
        · rw [hfg] at he'
          have := hcross e' he' e h
          simpa only [gapLE, decide_eq_true_eq] using this
    · intro hq
      rw [hfg, List.take_of_length_le]
      · exact hperm
      · rw [hperm.length_eq]
        exact hq

/-- When every pattern of the list compiles, the scan loop of rules 3 and 4
raises nothing and returns exactly "some pattern matches". -/
theorem scanPatterns_eq (pats : List String) (rs : List Pat) (s : String)
    (h : compileAll pats = some rs) :
    scanPatterns pats s = .ok (rs.any (fun r => r.search s)) := by
  induction pats generalizing rs with
  | nil =>
    unfold compileAll at h
    injection h with h
    subst h
    rfl
  | cons p rest ih =>
    unfold compileAll at h
    rcases hp : compileRE p with _ | r
    · rw [hp] at h
      exact Option.noConfusion h
    · rw [hp] at h
      rcases hrest : compileAll rest with _ | rs2
      · rw [hrest] at h
        exact Option.noConfusion h
      · rw [hrest] at h
        injection h with h
        subst h
        unfold scanPatterns
        rw [hp]
        cases hs : r.search s
        · simp only [Bool.false_eq_true, if_false, List.any_cons, hs, Bool.false_or]
          exact ih rs2 hrest
        · simp [hs]

/-- Claim C1: with every configured anchor pattern compiling (in particular
with the default configuration), `is_mechanical_link` returns the boolean
disjunction of its seven rules, evaluated in source order with the first
match winning; the origin and link-type checks are the only rules before the
anchor-pattern check, so an anchor matching a mechanical pattern makes the
record mechanical even when its origin is "Contenu" — witnessed by the
record with anchor "cliquez ici" and origin "Contenu", on which the origin
rule does not fire yet the record is mechanical, while a descriptive anchor
with the same origin stays editorial. -/
theorem is_mechanical_link_rule_order :
    (∀ (cfg : Config) (row : LinkRow) (aps xps : List Pat),
        compileAll (patternsToUse cfg) = some aps →
        compileAll mechanical_xpath_patterns = some xps →
        is_mechanical_link cfg row = .ok
          (originRule (pyLower row.origin) ||
            linkTypeRule (pyLower row.link_type) ||
            aps.any (fun r => r.search (pyStrip (pyLower row.anchor))) ||
            xps.any (fun r => r.search (pyLower row.xpath)) ||
            selectorRule (selectorsToUse cfg) (pyLower row.xpath) ||
            shortAnchorRule (pyStrip (pyLower row.anchor)) ||
            urlAnchorRule (pyStrip (pyLower row.anchor)))) ∧
      originRule (pyLower "Contenu") = false ∧
      is_mechanical_link defaultConfig ⟨"cliquez ici", "Contenu", "", ""⟩ = .ok true ∧
      is_mechanical_link defaultConfig
        ⟨"guide complet du maillage", "Contenu", "", ""⟩ = .ok false := by
  refine ⟨?_, by rfl, by rfl, by rfl⟩
  intro cfg row aps xps h1 h2
  unfold is_mechanical_link
  rw [scanPatterns_eq _ _ _ h1, scanPatterns_eq _ _ _ h2]
  cases ho : originRule (pyLower row.origin) <;>
    cases hl : linkTypeRule (pyLower row.link_type) <;>
      cases ha : aps.any (fun r => r.search (pyStrip (pyLower row.anchor))) <;>
        cases hx : xps.any (fun r => r.search (pyLower row.xpath)) <;>
          cases hs : selectorRule (selectorsToUse cfg) (pyLower row.xpath) <;>
            cases hsh : shortAnchorRule (pyStrip (pyLower row.anchor)) <;>
              cases hu : urlAnchorRule (pyStrip (pyLower row.anchor)) <;>
                simp [ho, hl, ha, hx, hs, hsh, hu]

/-- Claim C6 (counterexample): a configuration whose anchor-pattern list is
the single malformed regex `"["` makes classification of an ordinary content
record raise `re.error` (an `Except.error`), instead of skipping the pattern
and returning a boolean. -/
theorem is_mechanical_link_bad_pattern_raises :
    is_mechanical_link ⟨["["], []⟩ ⟨"guide complet", "Contenu", "", ""⟩ =
      .error () := by
  rfl

/-- Claim C6 (amended): a malformed regex in `mechanical_anchor_patterns` is
not skipped: as soon as rule 3 reaches it — that is, whenever the origin and
link-type rules did not already fire and no earlier configured pattern
matched — `is_mechanical_link` propagates the `re.error` exception.  A
matching pattern placed before the malformed one still short-circuits to
mechanical, because the loop returns before compiling the bad pattern. -/
theorem is_mechanical_link_bad_pattern_behavior :
    (∀ row : LinkRow, originRule (pyLower row.origin) = false →
        linkTypeRule (pyLower row.link_type) = false →
        is_mechanical_link ⟨["["], []⟩ row = .error ()) ∧
      is_mechanical_link ⟨["^(accueil)$", "["], []⟩
        ⟨"accueil", "Contenu", "", ""⟩ = .ok true := by
  refine ⟨?_, by rfl⟩
  intro row ho hl
  unfold is_mechanical_link
  rw [ho, hl]
  have hsc : scanPatterns (patternsToUse ⟨["["], []⟩) (pyStrip (pyLower row.anchor)) =
      .error () := by
    rfl
  rw [hsc]
  rfl

end Audit
